import Mathlib

/-!
The dynamic call marshalling of node-gtk: `src/function.cc`

A shallow embedding of `FunctionInfo::Init`, `FunctionInfo::TypeCheck` and
`FunctionInvoker`, followed by theorems about them.

Conventions of the embedding

* The introspection data (`GIBaseInfo`, `GIArgInfo`, `GITypeInfo`) is a plain
  record holding the answers of the `g_*_info_get_*` queries the code makes.
* C `int` counters are `Int`; they are bounded by the number of parameters, so
  no wrap-around is involved. An array length is a C `int` read from a slot or
  narrowed from a caller-side length: it goes through `toInt32`.
* A `for (i = 0; i < n; i++)` loop whose body leaves `i` and `n` alone is the
  fold `forLoop body (List.range n)`; a `return` inside the body stops it.
* The effects of a call (thrown errors, frame writes, allocations, the native
  call, conversions, frees) are recorded, in program order, in a list of
  `Event`.
* Indices outside an allocated block are undefined behaviour in C++. The
  embedding reads a default parameter or an unwritten slot there and drops
  such writes; none of the descriptors used below for evaluation produces one.
* Memory the code reads without having written it (an unwritten slot read as
  an integer, a read through a pointer that is neither the scratch of a
  parameter nor a buffer of `AllocateArgument`) holds whatever `Collaborators`
  says it holds; a read through a null pointer, and any read `Collaborators`
  declares invalid, is a `Fault` that ends the call where it happens.
* The conversion layer (`value.h`), the callback layer (`callback.h`) and the
  native callee are outside `function.cc`: the conversion test and the callee
  are parameters (`Collaborators`), converted values are symbolic.
-/

namespace GNodeJS

/-! ## Introspection data -/

/-- GIDirection of a parameter (`GI_DIRECTION_IN = 0`). -/
inductive GIDirection
  | GI_DIRECTION_IN
  | GI_DIRECTION_OUT
  | GI_DIRECTION_INOUT
  deriving DecidableEq, Repr, Inhabited

/-- Ownership transfer annotation. -/
inductive GITransfer
  | GI_TRANSFER_NOTHING
  | GI_TRANSFER_CONTAINER
  | GI_TRANSFER_EVERYTHING
  deriving DecidableEq, Repr, Inhabited

/-- The type tags `function.cc` tells apart; every other tag is `OTHER`. -/
inductive GITypeTag
  | GI_TYPE_TAG_VOID
  | GI_TYPE_TAG_ARRAY
  | GI_TYPE_TAG_INTERFACE
  | OTHER (code : Nat)
  deriving DecidableEq, Repr, Inhabited

/-- Result of `g_type_info_get_interface`: the info type, name and namespace. -/
structure InterfaceInfo where
  is_callback : Bool := false
  name : String := ""
  ns : String := ""
  deriving DecidableEq, Repr, Inhabited

/-- The queries made on a `GITypeInfo`. `array_length` is `-1` when absent. -/
structure GITypeInfo where
  tag : GITypeTag := .OTHER 0
  array_length : Int := -1
  interface : InterfaceInfo := {}
  deriving DecidableEq, Repr, Inhabited

/-- The queries made on a `GIArgInfo`. `destroy` and `closure` are `-1` when absent. -/
structure GIArgInfo where
  name : String := ""
  direction : GIDirection := .GI_DIRECTION_IN
  type : GITypeInfo := {}
  may_be_null : Bool := false
  caller_allocates : Bool := false
  destroy : Int := -1
  closure : Int := -1
  ownership_transfer : GITransfer := .GI_TRANSFER_NOTHING
  deriving DecidableEq, Repr, Inhabited

/-- The queries made on the function descriptor (`GIBaseInfo *info`). -/
structure GIBaseInfo where
  flag_is_method : Bool := false
  flag_is_constructor : Bool := false
  can_throw_gerror : Bool := false
  args : List GIArgInfo := []
  return_type : GITypeInfo := { tag := .GI_TYPE_TAG_VOID }
  skip_return : Bool := false
  caller_owns : GITransfer := .GI_TRANSFER_NOTHING
  deriving DecidableEq, Repr, Inhabited

/-- The call `g_callable_info_load_arg (info, i, &arg_info)`. -/
def load_arg (info : GIBaseInfo) (i : Int) : GIArgInfo :=
  if i < 0 then default else info.args.getD i.toNat default

/-! ## Caller values and native slots -/

/-- A caller-side (JavaScript) value, as far as `function.cc` inspects it. -/
inductive Value
  | undefined
  | null
  | number (n : Int)
  | string (s : String)
  | array (elems : List Int)
  | function (id : Nat)
  | object (id : Nat)
  deriving DecidableEq, Repr, Inhabited

/-- Test `value->IsNullOrUndefined()`. -/
def Value.IsNullOrUndefined : Value → Bool
  | .undefined => true
  | .null => true
  | _ => false

/-- One native argument slot (`GIArgument`, a union). Pointers are symbolic:
the address of `call_parameters[i].data`, of the local `error`, of a buffer
from `AllocateArgument`, of a `Callback` object, of its `closure`, and of
`Callback::DestroyNotify`. -/
inductive GIArgument
  | uninit
  | zero
  | v_int (n : Int)
  | nullptr
  | fromV8 (v : Value)
  | native (code : Nat)
  | addr_param_data (i : Nat)
  | addr_error
  | allocated (i : Nat)
  | callback_object (i : Nat)
  | callback_closure (i : Nat)
  | DestroyNotify
  deriving DecidableEq, Repr, Inhabited

/-! ## The plan (`FunctionInfo`) -/

/-- Modelled from the spec: the enumeration `ParameterType` is declared in
`function.h`; the spec lists the categories Normal, Skip, Array, Callback and
makes Normal the category of a parameter nothing else applies to, which is the
value `new Parameter[n]()` leaves in `type`. -/
inductive ParameterType
  | NORMAL
  | ARRAY
  | SKIP
  | CALLBACK
  deriving DecidableEq, Repr, Inhabited

/-- Modelled from the spec: `struct Parameter` is declared in `function.h`;
its fields are the ones `function.cc` uses. -/
structure Parameter where
  type : ParameterType := .NORMAL
  direction : GIDirection := .GI_DIRECTION_IN
  data : GIArgument := .zero
  length : Int := 0
  deriving DecidableEq, Repr, Inhabited

/-- The fields of `FunctionInfo` that `function.cc` uses. `call_parameters` is
`none` for the null pointer. `invoker_prepared` records that
`g_function_info_prep_invoker` ran. -/
structure FunctionInfo where
  call_parameters : Option (List Parameter) := none
  is_method : Bool := false
  can_throw : Bool := false
  n_callable_args : Int := 0
  n_total_args : Int := 0
  n_out_args : Int := 0
  n_in_args : Int := 0
  invoker_prepared : Bool := false
  deriving DecidableEq, Repr, Inhabited

/-- Read `call_parameters[k]`. -/
def FunctionInfo.param (func : FunctionInfo) (k : Int) : Parameter :=
  if k < 0 then default else (func.call_parameters.getD []).getD k.toNat default

/-- Update `call_parameters[k]` in place. -/
def FunctionInfo.modifyParam (func : FunctionInfo) (k : Int) (g : Parameter → Parameter) :
    FunctionInfo :=
  if k < 0 then func
  else { func with call_parameters := func.call_parameters.map (fun ps => ps.modify g k.toNat) }

/-- Errors raised through `Nan::ThrowTypeError` / `Nan::ThrowError`. -/
inductive Thrown
  | NotEnoughArguments (expected actual : Int)
  | InvalidType (i : Nat) (value : Value)
  | UnsupportedCallback
  | NativeError
  deriving DecidableEq, Repr

/-- A counting loop with early exit: `body i s` returns the new state and
`some e` when the body leaves the enclosing function. -/
def forLoop {σ ε : Type} (body : Nat → σ → σ × Option ε) : List Nat → σ → σ × Option ε
  | [], s => (s, none)
  | i :: rest, s =>
    match body i s with
    | (s1, some e) => (s1, some e)
    | (s1, none) => forLoop body rest s1

/-- The function `IsMethod` (lines 81-85). -/
def IsMethod (info : GIBaseInfo) : Bool :=
  info.flag_is_method && !info.flag_is_constructor

/-- The function `ShouldSkipReturn` (lines 87-90). -/
def ShouldSkipReturn (info : GIBaseInfo) (return_type : GITypeInfo) : Bool :=
  return_type.tag == .GI_TYPE_TAG_VOID || info.skip_return

/-- The macros `IS_OUT`, `IS_IN`, `IS_INOUT` (lines 92-96). -/
def IS_OUT (direction : GIDirection) : Bool :=
  direction == .GI_DIRECTION_OUT || direction == .GI_DIRECTION_INOUT

def IS_IN (direction : GIDirection) : Bool :=
  direction == .GI_DIRECTION_IN || direction == .GI_DIRECTION_INOUT

def IS_INOUT (direction : GIDirection) : Bool :=
  direction == .GI_DIRECTION_INOUT

/-- The callback branch of the loop body of `FunctionInfo::Init` (lines 465-486). -/
def InitCallback (arg_info : GIArgInfo) (i : Nat) (func : FunctionInfo) :
    FunctionInfo × Option Thrown :=
  let func := func.modifyParam i (fun p => { p with type := .CALLBACK })
  let destroy_i := arg_info.destroy
  let closure_i := arg_info.closure
  if destroy_i ≥ 0 && closure_i < 0 then
    (func, some .UnsupportedCallback)
  else
    let func :=
      if destroy_i ≥ 0 && destroy_i < func.n_callable_args then
        let func := func.modifyParam destroy_i (fun p => { p with type := .SKIP })
        if destroy_i < i then { func with n_in_args := func.n_in_args - 1 } else func
      else func
    let func :=
      if closure_i ≥ 0 && closure_i < func.n_callable_args then
        let func := func.modifyParam closure_i (fun p => { p with type := .SKIP })
        if closure_i < i then { func with n_in_args := func.n_in_args - 1 } else func
      else func
    (func, none)

/-- The classification part of the loop body of `FunctionInfo::Init` (lines 439-491). -/
def InitClassify (arg_info : GIArgInfo) (i : Nat) (func : FunctionInfo) :
    FunctionInfo × Option Thrown :=
  let type_info := arg_info.type
  if type_info.tag == .GI_TYPE_TAG_ARRAY then
    let length_i := type_info.array_length
    if length_i ≥ 0 then
      let func := func.modifyParam i (fun p => { p with type := .ARRAY })
      let func := func.modifyParam length_i (fun p => { p with type := .SKIP })
      if IS_IN (func.param i).direction && length_i < i then
        ({ func with n_in_args := func.n_in_args - 1 }, none)
      else (func, none)
    else (func, none)
  else if type_info.tag == .GI_TYPE_TAG_INTERFACE then
    if type_info.interface.is_callback then
      if type_info.interface.name == "DestroyNotify" && type_info.interface.ns == "GLib" then
        (func.modifyParam i (fun p => { p with type := .SKIP }), none)
      else InitCallback arg_info i func
    else (func, none)
  else (func, none)

/-- The loop body of `FunctionInfo::Init` (lines 425-498). -/
def InitBody (info : GIBaseInfo) (i : Nat) (func : FunctionInfo) :
    FunctionInfo × Option Thrown :=
  let arg_info := load_arg info i
  let direction := arg_info.direction
  let func := func.modifyParam i (fun p => { p with direction := direction })
  let func := if direction == .GI_DIRECTION_OUT || direction == .GI_DIRECTION_INOUT then
      { func with n_out_args := func.n_out_args + 1 } else func
  match InitClassify arg_info i func with
  | (func, some e) => (func, some e)
  | (func, none) =>
    if (func.param i).type != .SKIP then (func, none)
    else if IS_IN direction then ({ func with n_in_args := func.n_in_args + 1 }, none)
    else (func, none)

/-- The function `FunctionInfo::Init` (lines 399-511): the new plan and what was thrown. -/
def Init (info : GIBaseInfo) (func : FunctionInfo) : FunctionInfo × List Thrown :=
  if func.call_parameters.isSome then (func, [])
  else
    let is_method := IsMethod info
    let can_throw := info.can_throw_gerror
    let n : Int := info.args.length
    let func : FunctionInfo :=
      { func with
        invoker_prepared := true
        is_method := is_method
        can_throw := can_throw
        n_callable_args := n
        n_total_args := n + (if is_method then 1 else 0) + (if can_throw then 1 else 0)
        n_out_args := 0
        n_in_args := 0
        call_parameters := some (List.replicate info.args.length {}) }
    match forLoop (InitBody info) (List.range func.n_callable_args.toNat) func with
    | (func, some e) => (func, [e])
    | (func, none) =>
      if !ShouldSkipReturn info info.return_type then
        ({ func with n_out_args := func.n_out_args + 1 }, [])
      else (func, [])


/-! ## Type check (`FunctionInfo::TypeCheck`) -/

/-- What the native callee does: the value it returns, whether it sets the
failure handle, and the values it stores through the pointer it received as
argument `k`, as pairs `(k, value)`. -/
structure NativeResult where
  return_value : GIArgument := .zero
  raises : Bool := false
  stores : List (Nat × GIArgument) := []
  deriving DecidableEq, Repr, Inhabited

/-- Collaborators that live outside `function.cc`: the conversion test of
`value.h` and the native callee reached through `ffi_call`, which sees the
frame and the scratch storage of the parameters. The last three fields say
what memory the engine never wrote holds, which the source reads in places:
the integer found when a slot holding no integer is read as `v_int`; what a
read through a pointer to storage the engine does not own finds (`none`: the
read faults); and the outcome of the test
`callback->scope_type == GI_SCOPE_TYPE_CALL` read through a non-null pointer
(`none`: the read faults). -/
structure Collaborators where
  CanConvertV8ToGIArgument : GITypeInfo → Value → Bool → Bool
  native : List GIArgument → List Parameter → NativeResult
  indeterminate_int : GIArgument → Int := fun _ => 0
  wild_read : GIArgument → Option GIArgument := fun _ => none
  scope_type_is_call : GIArgument → Option Bool := fun _ => some false

/-- The expression `info[i]` of a `FunctionCallbackInfo`: `undefined` past the end. -/
def argumentAt (arguments : List Value) (i : Nat) : Value :=
  arguments.getD i .undefined

/-- The loop body of `FunctionInfo::TypeCheck` (lines 524-545); the state is `in_arg`. -/
def TypeCheckBody (env : Collaborators) (info : GIBaseInfo) (func : FunctionInfo)
    (arguments : List Value) (i : Nat) (in_arg : Nat) : Nat × Option Thrown :=
  let param := func.param i
  if param.type == .SKIP then (in_arg, none)
  else
    let arg_info := load_arg info i
    let direction := arg_info.direction
    if direction == .GI_DIRECTION_IN || direction == .GI_DIRECTION_INOUT then
      if !env.CanConvertV8ToGIArgument arg_info.type (argumentAt arguments in_arg)
          arg_info.may_be_null then
        (in_arg, some (.InvalidType i (argumentAt arguments in_arg)))
      else (in_arg + 1, none)
    else (in_arg, none)

/-- The function `FunctionInfo::TypeCheck` (lines 517-548): the verdict and what was thrown. -/
def TypeCheck (env : Collaborators) (info : GIBaseInfo) (func : FunctionInfo)
    (arguments : List Value) : Bool × List Thrown :=
  if (arguments.length : Int) < func.n_in_args then
    (false, [.NotEnoughArguments func.n_in_args arguments.length])
  else
    match forLoop (TypeCheckBody env info func arguments)
        (List.range func.n_callable_args.toNat) 0 with
    | (_, some e) => (false, [e])
    | (_, none) => (true, [])

/-! ## The call (`FunctionInvoker`) -/

/-- A value produced by the conversion layer on the way back. -/
inductive Converted
  | ofReturn (v : GIArgument) (length : Int)
  | ofArray (i : Nat) (content : GIArgument) (length : Int)
  | ofArgument (i : Nat) (content : GIArgument)
  deriving DecidableEq, Repr

/-- The local `jsReturnValue`: an empty handle, one value, or a JS array. -/
inductive JsReturn
  | empty
  | value (c : Converted)
  | array (items : List Converted)
  deriving DecidableEq, Repr

/-- Effects of a call, in program order. -/
inductive Event
  | thrown (e : Thrown)
  | slotWrite (k : Int) (v : GIArgument)
  | receiver (this : Value)
  | AllocateArgument (i : Nat)
  | MakeCallback (i : Nat) (v : Value)
  | V8ToGIArgument (i : Nat) (v : Value)
  | ffi_call (frame : List GIArgument)
  | toV8 (c : Converted)
  | RETURN (r : JsReturn)
  | FreeReturn (v : GIArgument)
  | FreeGIArgumentArray (i : Nat) (throughPointer : Bool) (slot : GIArgument) (length : Int)
  | CallbackScopeTest (i : Nat) (slot : GIArgument)
  | DeleteCallback (i : Nat) (slot : GIArgument)
  | FreeGIArgument (i : Nat) (throughPointer : Bool) (slot : GIArgument)
  deriving DecidableEq, Repr

/-- The state of one run of `FunctionInvoker`: the plan (whose scratch fields
the call mutates), the frame `total_arg_values`, the effects so far, and what
the callee stored in the buffers of `AllocateArgument` (a buffer with no entry
is still zeroed). -/
structure Machine where
  func : FunctionInfo
  frame : List GIArgument
  trace : List Event
  buffers : List (Nat × GIArgument) := []
  deriving DecidableEq, Repr

/-- Record an effect. -/
def Machine.log (m : Machine) (e : Event) : Machine :=
  { m with trace := m.trace ++ [e] }

/-- Position of `callable_arg_values[k]` inside `total_arg_values`. -/
def Machine.index (m : Machine) (k : Int) : Int :=
  if m.func.is_method then k + 1 else k

/-- Read `callable_arg_values[k]`. -/
def Machine.slot (m : Machine) (k : Int) : GIArgument :=
  if m.index k < 0 then .uninit else m.frame.getD (m.index k).toNat .uninit

/-- Write `callable_arg_values[k]`. -/
def Machine.setSlot (m : Machine) (k : Int) (v : GIArgument) : Machine :=
  let m := m.log (.slotWrite k v)
  if m.index k < 0 then m else { m with frame := m.frame.set (m.index k).toNat v }

/-- Update `func->call_parameters[k]` in place. -/
def Machine.modifyParam (m : Machine) (k : Int) (g : Parameter → Parameter) : Machine :=
  { m with func := m.func.modifyParam k g }

/-- Narrowing to a C `int`: 32 bits, two's complement. -/
def toInt32 (n : Int) : Int :=
  (n + 2147483648) % 4294967296 - 2147483648

/-- The result of `String::Length`: the number of UTF-16 code units. -/
def utf16Length (s : String) : Nat :=
  (s.toList.map (fun c => if c.toNat < 65536 then 1 else 2)).sum

/-- The function `GetV8ArrayLength`, which returns an `int`; `none` is
`g_assert_not_reached`. -/
def GetV8ArrayLength : Value → Option Int
  | .array elems => some (toInt32 elems.length)
  | .string s => some (toInt32 (utf16Length s))
  | .null => some 0
  | .undefined => some 0
  | _ => none

/-- The member `v_int` of a slot, a 32-bit `int`. A zeroed slot and a null
pointer read as 0; a slot that was never written, or holds anything else,
reads as whatever the memory holds. -/
def GIArgument.asInt (env : Collaborators) : GIArgument → Int
  | .v_int n => toInt32 n
  | .zero => 0
  | .nullptr => 0
  | a => toInt32 (env.indeterminate_int a)

/-- The contents of the buffer `AllocateArgument` made for parameter `j`. -/
def Machine.buffer (m : Machine) (j : Nat) : GIArgument :=
  (m.buffers.lookup j).getD .zero

/-- A read through a pointer slot: the scratch of a parameter, a buffer of
`AllocateArgument`, a fault for a null pointer, and for any other pointer what
the memory holds, if the read does not fault. -/
def deref (env : Collaborators) (m : Machine) : GIArgument → Option GIArgument
  | .addr_param_data j => some (m.func.param j).data
  | .allocated j => some (m.buffer j)
  | .nullptr => none
  | .zero => none
  | p => env.wild_read p

/-- The test `callback->scope_type == GI_SCOPE_TYPE_CALL` of the reclaimer,
read through the slot cast to `Callback*` (lines 341-342): a fault for a null
pointer, otherwise what the memory holds. -/
def scopeTypeIsCall (env : Collaborators) : GIArgument → Option Bool
  | .nullptr => none
  | .zero => none
  | p => env.scope_type_is_call p

/-- What ends the process: a failed `g_assert`, or a read through a null or
invalid pointer. -/
inductive Fault
  | g_assert
  | invalid_read
  deriving DecidableEq, Repr

/-- The callback branch of the frame builder (lines 159-185). -/
def BuildCallback (arg_info : GIArgInfo) (arguments : List Value) (i : Nat) (in_arg : Nat)
    (m : Machine) : Machine × Option Fault :=
  let value := argumentAt arguments in_arg
  let callback : Bool := !(value.IsNullOrUndefined && arg_info.may_be_null)
  let m := if callback then m.log (.MakeCallback i value) else m
  let destroy_i := arg_info.destroy
  let closure_i := arg_info.closure
  if destroy_i ≥ 0 && (m.func.param destroy_i).type != .SKIP then (m, some .g_assert)
  else
    let m := if destroy_i ≥ 0 then
        m.setSlot closure_i (if callback then .DestroyNotify else .nullptr) else m
    if closure_i ≥ 0 && (m.func.param closure_i).type != .SKIP then (m, some .g_assert)
    else
      let m := if closure_i ≥ 0 then
          m.setSlot closure_i (if callback then .callback_object i else .nullptr) else m
      (m.setSlot i (if callback then .callback_closure i else .nullptr), none)

/-- The array part of the fill branch of the frame builder (lines 190-211). -/
def BuildArrayLength (arg_info : GIArgInfo) (value : Value) (i : Nat) (m : Machine) :
    Machine × Option Fault :=
  let length_i := arg_info.type.array_length
  let len_param := m.func.param length_i
  if len_param.direction == .GI_DIRECTION_IN then
    match GetV8ArrayLength value with
    | none => (m, some .g_assert)
    | some n =>
      let m := m.modifyParam i (fun p => { p with length := n })
      (m.setSlot length_i (.v_int (m.func.param i).length), none)
  else if len_param.direction == .GI_DIRECTION_INOUT then
    match GetV8ArrayLength value with
    | none => (m, some .g_assert)
    | some n =>
      let m := m.modifyParam length_i (fun p => { p with data := .v_int n })
      (m.setSlot length_i (.addr_param_data length_i.toNat), none)
  else (m, none)

/-- The part of the frame builder before the INOUT re-homing (lines 151-214):
the machine, the new `in_arg`, and a fault if an assertion failed. -/
def BuildFill (arg_info : GIArgInfo) (arguments : List Value) (i : Nat) (in_arg : Nat)
    (m : Machine) : (Machine × Nat) × Option Fault :=
  if arg_info.direction == .GI_DIRECTION_OUT then
    if arg_info.caller_allocates then
      if arg_info.type.tag != .GI_TYPE_TAG_INTERFACE then ((m, in_arg), some .g_assert)
      else (((m.log (.AllocateArgument i)).setSlot i (.allocated i), in_arg), none)
    else
      let m := m.modifyParam i (fun p => { p with data := .zero })
      ((m.setSlot i (.addr_param_data i), in_arg), none)
  else if (m.func.param i).type == .CALLBACK then
    match BuildCallback arg_info arguments i in_arg m with
    | (m, r) => ((m, in_arg), r)
  else
    let value := argumentAt arguments in_arg
    let m := (m.log (.V8ToGIArgument i value)).setSlot i (.fromV8 value)
    if (m.func.param i).type == .ARRAY then
      match BuildArrayLength arg_info value i m with
      | (m, some e) => ((m, in_arg), some e)
      | (m, none) => ((m, in_arg + 1), none)
    else ((m, in_arg + 1), none)

/-- The loop body of the frame builder (lines 140-221); the state is the
machine and `in_arg`. -/
def BuildBody (info : GIBaseInfo) (arguments : List Value) (i : Nat) (s : Machine × Nat) :
    (Machine × Nat) × Option Fault :=
  let m := s.1
  let in_arg := s.2
  if (m.func.param i).type == .SKIP then (s, none)
  else
    let arg_info := load_arg info i
    match BuildFill arg_info arguments i in_arg m with
    | (s, some e) => (s, some e)
    | ((m, in_arg), none) =>
      if arg_info.direction == .GI_DIRECTION_INOUT then
        let old := m.slot i
        let m := m.modifyParam i (fun p => { p with data := old })
        ((m.setSlot i (.addr_param_data i), in_arg), none)
      else ((m, in_arg), none)

/-- Lines 120-133: the frame is allocated, the receiver and the failure slot are set. -/
def FrameSetup (func : FunctionInfo) (this : Value) : Machine :=
  let m : Machine :=
    { func := func, frame := List.replicate func.n_total_args.toNat .uninit, trace := [] }
  let m := if func.is_method then
      { (m.log (.receiver this)) with frame := m.frame.set 0 (.fromV8 this) } else m
  if func.can_throw then m.setSlot func.n_callable_args .addr_error else m

/-- Lines 120-221: the frame after the builder ran. -/
def BuildFrame (info : GIBaseInfo) (func : FunctionInfo) (this : Value)
    (arguments : List Value) : (Machine × Nat) × Option Fault :=
  forLoop (BuildBody info arguments) (List.range func.n_callable_args.toNat)
    (FrameSetup func this, 0)

/-- The callee stores `v` through the pointer it received as argument `k`:
into the scratch of a parameter or into a buffer of `AllocateArgument`. A
store through any other pointer lands in memory the engine does not own. -/
def applyStore (m : Machine) (kv : Nat × GIArgument) : Machine :=
  match m.slot kv.1 with
  | .addr_param_data j => m.modifyParam j (fun p => { p with data := kv.2 })
  | .allocated j => { m with buffers := (j, kv.2) :: m.buffers }
  | _ => m

/-- The macro `ADD_RETURN` (lines 261-264). The index `jsReturnIndex` it
increments always equals the number of items already set, so setting at that
index appends. -/
def ADD_RETURN (func : FunctionInfo) (js : JsReturn) (value : Converted) : JsReturn :=
  if func.n_out_args > 1 then
    match js with
    | .array items => .array (items ++ [value])
    | other => other
  else .value value

/-- Lines 266-272: the return value. -/
def MarshalReturn (env : Collaborators) (info : GIBaseInfo) (return_value : GIArgument)
    (s : Machine × JsReturn) : Machine × JsReturn :=
  let m := s.1
  if !ShouldSkipReturn info info.return_type then
    let length_i := info.return_type.array_length
    let length : Int := if length_i ≥ 0 then (m.slot length_i).asInt env else -1
    let c := Converted.ofReturn return_value length
    (m.log (.toV8 c), ADD_RETURN m.func s.2 c)
  else s

/-- The length the result marshaler reads for array parameter `i`
(lines 289-298): through the pointer in the length parameter's slot when that
parameter is Out or InOut, from the slot itself otherwise. `none`: the read
through the pointer faults. -/
def lengthAfterCall (env : Collaborators) (info : GIBaseInfo) (m : Machine) (i : Nat) :
    Option Int :=
  let length_i := (load_arg info i).type.array_length
  let length_direction := (load_arg info length_i).direction
  if IS_OUT length_direction then
    (deref env m (m.slot length_i)).map (GIArgument.asInt env)
  else some ((m.slot length_i).asInt env)

/-- The loop body of lines 274-309. The array branch reads the length, then
the pointer to the sequence through the slot; the conversion of a Normal
parameter reads the value through the slot. -/
def MarshalBody (env : Collaborators) (info : GIBaseInfo) (i : Nat) (s : Machine × JsReturn) :
    (Machine × JsReturn) × Option Fault :=
  let m := s.1
  let arg_info := load_arg info i
  let arg_value := m.slot i
  let direction := arg_info.direction
  if direction == .GI_DIRECTION_OUT || direction == .GI_DIRECTION_INOUT then
    if (m.func.param i).type == .ARRAY then
      match lengthAfterCall env info m i with
      | none => (s, some .invalid_read)
      | some n =>
        let m := m.modifyParam i (fun p => { p with length := n })
        match deref env m arg_value with
        | none => ((m, s.2), some .invalid_read)
        | some content =>
          let c := Converted.ofArray i content (m.func.param i).length
          ((m.log (.toV8 c), ADD_RETURN m.func s.2 c), none)
    else if (m.func.param i).type == .NORMAL then
      match deref env m arg_value with
      | none => (s, some .invalid_read)
      | some content =>
        let c := Converted.ofArgument i content
        ((m.log (.toV8 c), ADD_RETURN m.func s.2 c), none)
    else (s, none)
  else (s, none)

/-- Modelled from the spec: the macro `RETURN` is defined outside
`function.cc`. It hands `value` to the caller as the result of the call, and
control continues into the reclaimer, which the spec says runs after the
marshaler on success and on failure alike. -/
def RETURN (m : Machine) (value : JsReturn) : Machine :=
  m.log (.RETURN value)

/-- Lines 258-313: the result marshaler; a fault ends the call before `RETURN`. -/
def Marshal (env : Collaborators) (info : GIBaseInfo) (return_value : GIArgument)
    (m : Machine) : Machine × Option Fault :=
  let js : JsReturn := if m.func.n_out_args > 1 then .array [] else .empty
  let s := MarshalReturn env info return_value (m, js)
  match forLoop (MarshalBody env info) (List.range m.func.n_callable_args.toNat) s with
  | (s, some e) => (s.1, some e)
  | (s, none) => (RETURN s.1 s.2, none)

/-- What the loop body of the reclaimer (lines 322-351) does for parameter
`i`: the effects, or `none` when the scope test of the callback branch reads
through a null or invalid pointer. That branch casts the slot itself to
`Callback*`. -/
def ReclaimStep (env : Collaborators) (info : GIBaseInfo) (m : Machine) (i : Nat) :
    Option (List Event) :=
  let arg_info := load_arg info i
  let arg_value := m.slot i
  let param := m.func.param i
  let direction := arg_info.direction
  if param.type == .ARRAY then
    if direction == .GI_DIRECTION_INOUT || direction == .GI_DIRECTION_OUT then
      some [.FreeGIArgumentArray i true arg_value param.length]
    else some [.FreeGIArgumentArray i false arg_value param.length]
  else if param.type == .CALLBACK then
    match scopeTypeIsCall env arg_value with
    | none => none
    | some true => some [.CallbackScopeTest i arg_value, .DeleteCallback i arg_value]
    | some false => some [.CallbackScopeTest i arg_value]
  else
    if direction == .GI_DIRECTION_INOUT ||
        (direction == .GI_DIRECTION_OUT && !arg_info.caller_allocates) then
      some [.FreeGIArgument i true arg_value]
    else some [.FreeGIArgument i false arg_value]

/-- The loop body of the reclaimer (lines 322-351). -/
def ReclaimBody (env : Collaborators) (info : GIBaseInfo) (i : Nat) (m : Machine) :
    Machine × Option Fault :=
  match ReclaimStep env info m i with
  | none => (m, some .invalid_read)
  | some evs => ({ m with trace := m.trace ++ evs }, none)

/-- Lines 315-351: the reclaimer. -/
def Reclaim (env : Collaborators) (info : GIBaseInfo) (return_value : GIArgument)
    (m : Machine) : Machine × Option Fault :=
  forLoop (ReclaimBody env info) (List.range m.func.n_callable_args.toNat)
    (m.log (.FreeReturn return_value))

/-- Lines 228-236: the native call. The callee sees the frame and the scratch
storage, returns a value, may store through the pointers it was given, and
may set the failure handle when it was given its address. -/
def NativeCall (env : Collaborators) (m : Machine) : Machine × NativeResult × Bool :=
  let r := env.native m.frame (m.func.call_parameters.getD [])
  let error := r.raises && m.func.can_throw &&
    (m.slot m.func.n_callable_args == .addr_error)
  let m := m.log (.ffi_call m.frame)
  (r.stores.foldl applyStore m, r, error)

/-- What one run of `FunctionInvoker` leaves behind. -/
structure Outcome where
  func : FunctionInfo
  trace : List Event
  aborted : Bool
  deriving DecidableEq, Repr

/-- Lines 224-351: from the native call to the end. -/
def CallAndReturn (env : Collaborators) (info : GIBaseInfo) (m : Machine) :
    Machine × Option Fault :=
  match NativeCall env m with
  | (m, r, error) =>
    if error then Reclaim env info r.return_value (m.log (.thrown .NativeError))
    else
      match Marshal env info r.return_value m with
      | (m, some e) => (m, some e)
      | (m, none) => Reclaim env info r.return_value m

/-- Lines 115-351: the part of `FunctionInvoker` after a successful type
check: the final machine, and whether the process was ended by a fault. -/
def Invoke (env : Collaborators) (info : GIBaseInfo) (func : FunctionInfo) (this : Value)
    (arguments : List Value) : Machine × Bool :=
  match BuildFrame info func this arguments with
  | ((m, _), some _) => (m, true)
  | ((m, _), none) =>
    match CallAndReturn env info m with
    | (m, r) => (m, r.isSome)

/-- The function `FunctionInvoker` (lines 98-352), run on the plan `func` of a callable. -/
def FunctionInvoker (env : Collaborators) (info : GIBaseInfo) (func : FunctionInfo)
    (this : Value) (arguments : List Value) : Outcome :=
  let init := Init info func
  let thrownByInit := init.2.map Event.thrown
  match TypeCheck env info init.1 arguments with
  | (false, es) =>
    { func := init.1, trace := thrownByInit ++ es.map Event.thrown, aborted := false }
  | (true, _) =>
    match Invoke env info init.1 this arguments with
    | (m, aborted) => { func := m.func, trace := thrownByInit ++ m.trace, aborted := aborted }


/-! ## Observations on a trace -/

def Event.isNativeCall : Event → Bool
  | .ffi_call _ => true
  | _ => false

def Event.isFrameWrite : Event → Bool
  | .slotWrite _ _ => true
  | .receiver _ => true
  | _ => false

def Event.isAllocation : Event → Bool
  | .AllocateArgument _ => true
  | .MakeCallback _ _ => true
  | .V8ToGIArgument _ _ => true
  | _ => false

def Event.isConversionBack : Event → Bool
  | .toV8 _ => true
  | .RETURN _ => true
  | _ => false

/-- Number of times the native callee was entered. -/
def nativeCalls (trace : List Event) : Nat := trace.countP Event.isNativeCall

/-- The value handed to `RETURN`, if the call got there. -/
def returned (trace : List Event) : Option JsReturn :=
  trace.findSome? (fun e => match e with
    | .RETURN r => some r
    | _ => none)

/-- Effects that belong to the frame builder. -/
def Event.isBuild : Event → Bool
  | .slotWrite _ _ => true
  | .receiver _ => true
  | .AllocateArgument _ => true
  | .MakeCallback _ _ => true
  | .V8ToGIArgument _ _ => true
  | _ => false

/-- Parameter `i` is not Skip in the plan and its direction is In or InOut. -/
def isInParam (info : GIBaseInfo) (func : FunctionInfo) (i : Nat) : Bool :=
  (func.param i).type != .SKIP && IS_IN (load_arg info i).direction

/-- Indices of the parameters whose category in the plan is not Skip and whose
direction is In or InOut, in declared order. -/
def inParams (info : GIBaseInfo) (func : FunctionInfo) : List Nat :=
  (List.range func.n_callable_args.toNat).filter (isInParam info func)

/-- Indices of the parameters whose category in the plan is not Skip and whose
direction is Out or InOut, in declared order. -/
def outParams (info : GIBaseInfo) (func : FunctionInfo) : List Nat :=
  (List.range func.n_callable_args.toNat).filter
    (fun i => (func.param i).type != .SKIP && IS_OUT (load_arg info i).direction)

/-- The output count the specification describes: one per non-Skip Out/InOut
parameter, plus one for a return value that is neither void nor skipped. -/
def specOutCount (info : GIBaseInfo) (func : FunctionInfo) : Int :=
  (outParams info func).length + (if ShouldSkipReturn info info.return_type then 0 else 1)

/-- Caller value `k` fails the conversion test of parameter `i`. -/
def failsConversion (env : Collaborators) (info : GIBaseInfo) (arguments : List Value)
    (ki : Nat × Nat) : Bool :=
  !env.CanConvertV8ToGIArgument (load_arg info ki.2).type (argumentAt arguments ki.1)
    (load_arg info ki.2).may_be_null

/-! ## Descriptors used for evaluation -/

def int_t : GITypeInfo := { tag := .OTHER 4 }

def pointer_t : GITypeInfo := { tag := .OTHER 1 }

def int_array_t (length_i : Int) : GITypeInfo :=
  { tag := .GI_TYPE_TAG_ARRAY, array_length := length_i }

def callback_t : GITypeInfo :=
  { tag := .GI_TYPE_TAG_INTERFACE
    interface := { is_callback := true, name := "AsyncReadyCallback", ns := "Gio" } }

def destroy_notify_t : GITypeInfo :=
  { tag := .GI_TYPE_TAG_INTERFACE
    interface := { is_callback := true, name := "DestroyNotify", ns := "GLib" } }

/-- Descriptor `add(a: int In, b: int In) -> int`. -/
def add_info : GIBaseInfo :=
  { args := [{ name := "a", type := int_t }, { name := "b", type := int_t }]
    return_type := int_t }

/-- Descriptor `resize(data: int[] InOut, length = n; n: int InOut) -> void`. -/
def resize_info : GIBaseInfo :=
  { args := [{ name := "data", type := int_array_t 1, direction := .GI_DIRECTION_INOUT },
             { name := "n", type := int_t, direction := .GI_DIRECTION_INOUT }] }

/-- Method descriptor `watch(notify: GLib.DestroyNotify, cb: callback with
destroy = 0 and no closure) -> void`. -/
def watch_info : GIBaseInfo :=
  { flag_is_method := true
    args := [{ name := "notify", type := destroy_notify_t },
             { name := "cb", type := callback_t, destroy := 0 }] }

/-- Descriptor `connect(cb: callback with closure = 1 and destroy = 2,
data: pointer, notify: GLib.DestroyNotify) -> void`. -/
def connect_info : GIBaseInfo :=
  { args := [{ name := "cb", type := callback_t, closure := 1, destroy := 2 },
             { name := "data", type := pointer_t },
             { name := "notify", type := destroy_notify_t }] }

/-- Descriptor `sum(values: int[] In, length = n; n: int In) -> int`. -/
def sum_info : GIBaseInfo :=
  { args := [{ name := "values", type := int_array_t 1 }, { name := "n", type := int_t }]
    return_type := int_t }

/-- Descriptor `poll(cb: nullable callback In, n: int In) -> void`, reporting
failure through a `GError`; the callback has neither closure nor destroy
index. -/
def poll_info : GIBaseInfo :=
  { can_throw_gerror := true
    args := [{ name := "cb", type := callback_t, may_be_null := true },
             { name := "n", type := int_t }] }

/-- Descriptor `load(path: int In) -> int`, reporting failure through a `GError`. -/
def load_info : GIBaseInfo :=
  { can_throw_gerror := true
    args := [{ name := "path", type := int_t }]
    return_type := int_t }

/-- Collaborators: every value converts, the callee does nothing. -/
def quietEnv : Collaborators :=
  { CanConvertV8ToGIArgument := fun _ _ _ => true
    native := fun _ _ => {} }

/-- Collaborators: every value converts, the callee reports a failure. -/
def raisingEnv : Collaborators :=
  { CanConvertV8ToGIArgument := fun _ _ _ => true
    native := fun _ _ => { raises := true } }

/-- Collaborators: only numbers convert, the callee reports a failure. -/
def failingEnv : Collaborators :=
  { CanConvertV8ToGIArgument := fun _ v _ => match v with
      | .number _ => true
      | _ => false
    native := fun _ _ => { raises := true } }

/-- Descriptor `count(n: int In; values: int[] In, length = n) -> int`: the
length parameter precedes the array. -/
def count_info : GIBaseInfo :=
  { args := [{ name := "n", type := int_t }, { name := "values", type := int_array_t 0 }]
    return_type := int_t }

/-- Descriptor `each(cb: callback In, count: int In) -> void`; the callback
has neither closure nor destroy index. -/
def each_info : GIBaseInfo :=
  { args := [{ name := "cb", type := callback_t }, { name := "count", type := int_t }] }

/-- Descriptor of a virtual function `activate(level: int In) -> void` whose
own method flag is not set. -/
def activate_info : GIBaseInfo :=
  { args := [{ name := "level", type := int_t }] }

/-- Collaborators: a function converts to an interface type, a number to any
other type, nothing else converts; the callee does nothing. -/
def strictEnv : Collaborators :=
  { CanConvertV8ToGIArgument := fun t v _ => match t.tag, v with
      | .GI_TYPE_TAG_INTERFACE, .function _ => true
      | .OTHER _, .number _ => true
      | _, _ => false
    native := fun _ _ => {} }

/-! ## The virtual-dispatch variant (`PrepareVFuncInvoker`, `MakeVirtualFunction`) -/

/-- An entry of the argument-type vector handed to `ffi_prep_cif`:
`&ffi_type_pointer`, the result of `g_type_info_get_ffi_type`, or an entry of
the `g_alloca` block that was not written. -/
inductive FfiType
  | ffi_type_pointer
  | of_type_info (t : GITypeInfo)
  | unset
  deriving DecidableEq, Repr, Inhabited

/-- What `PrepareVFuncInvoker` leaves in the `GIFunctionInvoker`: the call
signature given to `ffi_prep_cif` and the resolved address. -/
structure GIFunctionInvoker where
  n_invoke_args : Int
  rtype : FfiType
  atypes : List FfiType
  native_address : Option Nat
  deriving DecidableEq, Repr, Inhabited

/-- The switch on the direction in the second loop of `PrepareVFuncInvoker`
(lines 595-617). -/
def vfuncArgType (ainfo : GIArgInfo) : FfiType :=
  match ainfo.direction with
  | .GI_DIRECTION_IN => .of_type_info ainfo.type
  | .GI_DIRECTION_OUT => .ffi_type_pointer
  | .GI_DIRECTION_INOUT => .ffi_type_pointer

/-- The function `PrepareVFuncInvoker` (lines 551-629). `address` is what
`g_vfunc_info_get_address` finds for the implementor, `none` when it sets the
error. The counters `n_in_args`, `n_out_args`, `in_pos`, `out_pos` of the
source are written and never read. -/
def PrepareVFuncInvoker (info : GIBaseInfo) (address : Option Nat) : GIFunctionInvoker :=
  let n_args := info.args.length
  let n_invoke_args := n_args + 1
  let atypes := List.replicate n_invoke_args FfiType.unset
  let atypes := atypes.set 0 .ffi_type_pointer
  let atypes := (List.range n_args).foldl
    (fun a i => a.set (i + 1) (vfuncArgType (load_arg info i))) atypes
  { n_invoke_args := n_invoke_args
    rtype := .of_type_info info.return_type
    atypes := atypes
    native_address := address }

/-- The callable `MakeVirtualFunction` builds: a zeroed `FunctionInfo`
(`g_new0`) and the invoker prepared for it. -/
structure VirtualFunction where
  func : FunctionInfo
  invoker : GIFunctionInvoker
  deriving DecidableEq, Repr

/-- The function `MakeVirtualFunction` (lines 631-663); `none` when the
address could not be resolved and the construction is abandoned. The callable
runs `FunctionInvoker` on `func`. -/
def MakeVirtualFunction (info : GIBaseInfo) (address : Option Nat) : Option VirtualFunction :=
  let func : FunctionInfo := {}
  let invoker := PrepareVFuncInvoker info address
  if address.isNone then none else some { func := func, invoker := invoker }

/-! ## Which caller value each parameter gets -/

/-- The caller values the frame builder consumed, with the parameter each was
used for: the arguments of `MakeCallback` and `FillArgument`, in order. -/
def builderConsumed (trace : List Event) : List (Nat × Value) :=
  trace.filterMap (fun e => match e with
    | .MakeCallback i v => some (i, v)
    | .V8ToGIArgument i v => some (i, v)
    | _ => none)

/-- What the specification describes: the `k`-th non-Skip In/InOut parameter
is filled from caller value `k`. -/
def specConsumed (info : GIBaseInfo) (func : FunctionInfo) (arguments : List Value) :
    List (Nat × Value) :=
  (inParams info func).enum.map (fun ki => (ki.2, argumentAt arguments ki.1))

/-! ## Loops and plan updates -/

theorem forLoop_invariant {σ ε : Type} (P : σ → Prop) (body : Nat → σ → σ × Option ε)
    (hbody : ∀ i s, P s → P (body i s).1) :
    ∀ (l : List Nat) (s : σ), P s → P (forLoop body l s).1 := by
  intro l
  induction l with
  | nil => intro s hs; simpa [forLoop] using hs
  | cons i rest ih =>
    intro s hs
    have h1 := hbody i s hs
    unfold forLoop
    rcases hb : body i s with ⟨s1, _ | e⟩
    · rw [hb] at h1; exact ih s1 h1
    · rw [hb] at h1; exact h1

theorem modifyParam_isSome (func : FunctionInfo) (k : Int) (g : Parameter → Parameter) :
    (func.modifyParam k g).call_parameters.isSome = func.call_parameters.isSome := by
  unfold FunctionInfo.modifyParam
  split <;> simp

theorem InitCallback_isSome (arg_info : GIArgInfo) (i : Nat) (func : FunctionInfo) :
    (InitCallback arg_info i func).1.call_parameters.isSome = func.call_parameters.isSome := by
  unfold InitCallback
  simp only
  split_ifs <;> simp [modifyParam_isSome]

theorem InitClassify_isSome (arg_info : GIArgInfo) (i : Nat) (func : FunctionInfo) :
    (InitClassify arg_info i func).1.call_parameters.isSome = func.call_parameters.isSome := by
  unfold InitClassify
  simp only
  split_ifs <;> simp [modifyParam_isSome, InitCallback_isSome]

theorem InitBody_isSome (info : GIBaseInfo) (i : Nat) (func : FunctionInfo) :
    (InitBody info i func).1.call_parameters.isSome = func.call_parameters.isSome := by
  unfold InitBody
  simp only
  split
  · next f e h =>
    have h2 := congrArg (fun r : FunctionInfo × Option Thrown => r.1.call_parameters.isSome) h
    simp only [InitClassify_isSome] at h2
    rw [← h2]
    split_ifs <;> simp [modifyParam_isSome]
  · next f h =>
    have h2 := congrArg (fun r : FunctionInfo × Option Thrown => r.1.call_parameters.isSome) h
    simp only [InitClassify_isSome] at h2
    have h3 : f.call_parameters.isSome = func.call_parameters.isSome := by
      rw [← h2]
      split_ifs <;> simp [modifyParam_isSome]
    split_ifs <;> simp [h3]

theorem Init_isSome (info : GIBaseInfo) (func : FunctionInfo) :
    (Init info func).1.call_parameters.isSome = true := by
  unfold Init
  by_cases h : func.call_parameters.isSome = true
  · simp [h]
  · simp only [h]
    have key := forLoop_invariant (fun f : FunctionInfo => f.call_parameters.isSome = true)
      (InitBody info) (fun i s hs => by simp only [InitBody_isSome]; exact hs)
    simp only [Bool.false_eq_true, if_false]
    split
    · next f e hl =>
      have h2 := congrArg (fun r : FunctionInfo × Option Thrown => r.1) hl
      simp only at h2
      rw [← h2]
      exact key _ _ (by simp)
    · next f hl =>
      have h2 := congrArg (fun r : FunctionInfo × Option Thrown => r.1) hl
      simp only at h2
      have h3 : f.call_parameters.isSome = true := by
        rw [← h2]
        exact key _ _ (by simp)
      split_ifs <;> simp [h3]

@[simp] theorem Machine.log_frame (m : Machine) (e : Event) : (m.log e).frame = m.frame := rfl

@[simp] theorem Machine.modifyParam_trace (m : Machine) (k : Int) (g : Parameter → Parameter) :
    (m.modifyParam k g).trace = m.trace := rfl

@[simp] theorem Machine.modifyParam_frame (m : Machine) (k : Int) (g : Parameter → Parameter) :
    (m.modifyParam k g).frame = m.frame := rfl

@[simp] theorem FunctionInfo.modifyParam_n_callable_args (func : FunctionInfo) (k : Int)
    (g : Parameter → Parameter) :
    (func.modifyParam k g).n_callable_args = func.n_callable_args := by
  unfold FunctionInfo.modifyParam
  split <;> rfl

@[simp] theorem FunctionInfo.modifyParam_n_out_args (func : FunctionInfo) (k : Int)
    (g : Parameter → Parameter) :
    (func.modifyParam k g).n_out_args = func.n_out_args := by
  unfold FunctionInfo.modifyParam
  split <;> rfl

@[simp] theorem FunctionInfo.modifyParam_is_method (func : FunctionInfo) (k : Int)
    (g : Parameter → Parameter) :
    (func.modifyParam k g).is_method = func.is_method := by
  unfold FunctionInfo.modifyParam
  split <;> rfl

@[simp] theorem FunctionInfo.modifyParam_can_throw (func : FunctionInfo) (k : Int)
    (g : Parameter → Parameter) :
    (func.modifyParam k g).can_throw = func.can_throw := by
  unfold FunctionInfo.modifyParam
  split <;> rfl

theorem isBuild_not_conversion (e : Event) (h : e.isBuild = true) :
    e.isConversionBack = false := by
  cases e <;> simp_all [Event.isBuild, Event.isConversionBack]

/-! ## Lengths in a trace -/

theorem TypeCheckBody_not_in (env : Collaborators) (info : GIBaseInfo) (func : FunctionInfo)
    (arguments : List Value) (i a : Nat) (h : isInParam info func i = false) :
    TypeCheckBody env info func arguments i a = (a, none) := by
  unfold TypeCheckBody
  unfold isInParam IS_IN at h
  by_cases hs : (func.param i).type = .SKIP
  · simp [hs]
  · simp [hs] at h
    simp [hs, h]

theorem TypeCheckBody_in (env : Collaborators) (info : GIBaseInfo) (func : FunctionInfo)
    (arguments : List Value) (i a : Nat) (h : isInParam info func i = true) :
    TypeCheckBody env info func arguments i a =
      if failsConversion env info arguments (a, i) then
        (a, some (.InvalidType i (argumentAt arguments a)))
      else (a + 1, none) := by
  unfold TypeCheckBody failsConversion
  unfold isInParam IS_IN at h
  by_cases hs : (func.param i).type = .SKIP
  · simp [hs] at h
  · simp [hs] at h
    simp only [beq_iff_eq, hs, if_false]
    have hd : ((load_arg info i).direction == GIDirection.GI_DIRECTION_IN ||
        (load_arg info i).direction == GIDirection.GI_DIRECTION_INOUT) = true := by
      simpa using h
    simp only [hd, if_true]

theorem forLoop_TypeCheckBody (env : Collaborators) (info : GIBaseInfo) (func : FunctionInfo)
    (arguments : List Value) :
    ∀ (l : List Nat) (a : Nat),
      forLoop (TypeCheckBody env info func arguments) l a =
        match ((l.filter (isInParam info func)).enumFrom a).find?
            (failsConversion env info arguments) with
        | some ki => (ki.1, some (.InvalidType ki.2 (argumentAt arguments ki.1)))
        | none => (a + (l.filter (isInParam info func)).length, none) := by
  intro l
  induction l with
  | nil => intro a; simp [forLoop]
  | cons i rest ih =>
    intro a
    unfold forLoop
    by_cases hin : isInParam info func i = true
    · rw [TypeCheckBody_in env info func arguments i a hin]
      by_cases hf : failsConversion env info arguments (a, i) = true
      · simp [hf, hin, List.enumFrom, List.find?]
      · simp only [hf, Bool.false_eq_true, if_false]
        rw [ih (a + 1)]
        simp [hin, List.enumFrom, List.find?, hf]
        split <;> (simp; try omega)
    · simp only [Bool.not_eq_true] at hin
      rw [TypeCheckBody_not_in env info func arguments i a hin]
      simp only
      rw [ih a]
      simp [hin]

/-! ## Evaluations -/

/-- C1 (code bug): for `add(a: int In, b: int In) -> int` both parameters are
non-Skip In parameters, yet `FunctionInfo::Init` leaves `n_in_args` at 0, not
2: the test before the increment lets only Skip parameters through. -/
theorem C1_add_in_count_is_zero :
    (Init add_info {}).1.n_in_args = 0 ∧
      (inParams add_info (Init add_info {}).1).length = 2 := by
  decide

/-- C2 (code bug): for `resize(data: int[] InOut, n: int InOut) -> void` the
length parameter `n` is Skip, the only non-Skip output is `data`, yet
`FunctionInfo::Init` leaves `n_out_args` at 2: the Skip length parameter is
counted. -/
theorem C2_skip_length_counted_as_output :
    ((Init resize_info {}).1.param 1).type = .SKIP ∧
      specOutCount resize_info (Init resize_info {}).1 = 1 ∧
      (Init resize_info {}).1.n_out_args = 2 := by
  decide

/-- C3 (code bug): a successful call of `resize` produces exactly one output
(one conversion back), yet the result handed to `RETURN` is a composite of
length 1 wrapping it, not the value itself. -/
theorem C3_single_output_is_wrapped :
    (FunctionInvoker quietEnv resize_info {} .undefined [.array [1, 2, 3]]).trace.countP
        (fun e => e matches .toV8 _) = 1 ∧
      returned (FunctionInvoker quietEnv resize_info {} .undefined [.array [1, 2, 3]]).trace =
        some (.array [.ofArray 0 (.fromV8 (.array [1, 2, 3])) 3]) := by
  decide

/-- C6 (code bug): `watch` has a callback with a destroy index and no closure
index. The first call raises UnsupportedCallback and still passes the type
check, builds the frame and enters the native callee; a second call on the
same plan raises nothing and enters the native callee again. -/
theorem C6_unsupported_callback_is_still_called :
    (Init watch_info {}).2 = [.UnsupportedCallback] ∧
      (FunctionInvoker quietEnv watch_info {} (.object 0) [.function 7]).trace.head? =
        some (.thrown .UnsupportedCallback) ∧
      nativeCalls (FunctionInvoker quietEnv watch_info {} (.object 0) [.function 7]).trace = 1 ∧
      (FunctionInvoker quietEnv watch_info
        (FunctionInvoker quietEnv watch_info {} (.object 0) [.function 7]).func
        (.object 0) [.function 7]).trace.all (fun e => !(e matches .thrown _)) = true ∧
      nativeCalls (FunctionInvoker quietEnv watch_info
        (FunctionInvoker quietEnv watch_info {} (.object 0) [.function 7]).func
        (.object 0) [.function 7]).trace = 1 := by
  decide

/-- C8 (code bug): for `connect(cb, data, notify)` with closure index 1 and
destroy index 2, called with a function, the builder finishes without fault,
slot 1 holds the `Callback` object, but slot 2 was never written: the pointer
to `Callback::DestroyNotify` went to slot 1 and was overwritten there. -/
theorem C8_destroy_slot_is_not_written :
    (BuildFrame connect_info (Init connect_info {}).1 .undefined
        [.function 7, .undefined]).2 = none ∧
      (BuildFrame connect_info (Init connect_info {}).1 .undefined
        [.function 7, .undefined]).1.1.frame =
        [.callback_closure 0, .callback_object 0, .uninit] ∧
      (BuildFrame connect_info (Init connect_info {}).1 .undefined
        [.function 7, .undefined]).1.1.trace =
        [.MakeCallback 0 (.function 7), .slotWrite 1 .DestroyNotify,
         .slotWrite 1 (.callback_object 0), .slotWrite 0 (.callback_closure 0)] := by
  decide

/-- C9 (code bug): `poll(cb: nullable callback In, n: int In)` is called with
`(null, 5)` and the callee reports a failure. The builder stores a null pointer
in slot 0 (line 184), the native error is reported and the return value is
freed, and then the reclaimer, at slot 0, reads `scope_type` through that null
pointer (lines 341-342): the call ends there by an invalid read, and slot 1 is
never visited. -/
theorem C9_null_callback_ends_reclaimer :
    (FunctionInvoker raisingEnv poll_info {} .undefined [.null, .number 5]).trace =
        [.slotWrite 2 .addr_error, .slotWrite 0 .nullptr, .V8ToGIArgument 1 .null,
         .slotWrite 1 (.fromV8 .null),
         .ffi_call [.nullptr, .fromV8 .null, .addr_error],
         .thrown .NativeError, .FreeReturn .zero] ∧
      (FunctionInvoker raisingEnv poll_info {} .undefined [.null, .number 5]).aborted = true ∧
      (Init poll_info {}).1.n_callable_args = 2 := by
  decide

/-- C10: `FunctionInfo::Init` is idempotent. Whatever the descriptor and the
state it starts from, a second invocation returns at the guard: it leaves the
whole plan (so `n_callable_args`, `n_in_args`, `n_out_args`, `n_total_args`
and every parameter's category) as the first invocation left it, and throws
nothing. -/
theorem C10_Init_idempotent (info : GIBaseInfo) (func : FunctionInfo) :
    Init info (Init info func).1 = ((Init info func).1, []) := by
  have h := Init_isSome info func
  generalize (Init info func).1 = plan at h
  unfold Init
  simp [h]

/-- C4: when the caller supplies fewer values than the plan's `n_in_args`
(the plan being the one `Init` leaves in `func`), `TypeCheck` returns false
after raising NotEnoughArguments with expected `n_in_args` and actual the
supplied length, and `FunctionInvoker` stops there: after what `Init` may have
thrown, that error is its only effect, so no frame slot is written, nothing is
allocated and the native callee is not entered. -/
theorem C4_not_enough_arguments (env : Collaborators) (info : GIBaseInfo)
    (func : FunctionInfo) (this : Value) (arguments : List Value)
    (h : (arguments.length : Int) < (Init info func).1.n_in_args) :
    TypeCheck env info (Init info func).1 arguments =
        (false, [.NotEnoughArguments (Init info func).1.n_in_args arguments.length]) ∧
      (FunctionInvoker env info func this arguments).trace =
        (Init info func).2.map Event.thrown ++
          [.thrown (.NotEnoughArguments (Init info func).1.n_in_args arguments.length)] ∧
      (FunctionInvoker env info func this arguments).trace.countP Event.isFrameWrite = 0 ∧
      (FunctionInvoker env info func this arguments).trace.countP Event.isAllocation = 0 ∧
      nativeCalls (FunctionInvoker env info func this arguments).trace = 0 := by
  have htc : TypeCheck env info (Init info func).1 arguments =
      (false, [.NotEnoughArguments (Init info func).1.n_in_args arguments.length]) := by
    unfold TypeCheck
    simp [h]
  have htr : (FunctionInvoker env info func this arguments).trace =
      (Init info func).2.map Event.thrown ++
        [.thrown (.NotEnoughArguments (Init info func).1.n_in_args arguments.length)] := by
    unfold FunctionInvoker
    simp [htc]
  refine ⟨htc, htr, ?_, ?_, ?_⟩
  · rw [htr]; simp [List.countP_eq_zero, Event.isFrameWrite]
  · rw [htr]; simp [List.countP_eq_zero, Event.isAllocation]
  · rw [htr]; simp [nativeCalls, List.countP_eq_zero, Event.isNativeCall]

/-- Witness for C4: the plan of `sum` has `n_in_args = 1`; it is called with
no value. -/
theorem C4_not_enough_arguments_witness :
    TypeCheck quietEnv sum_info (Init sum_info {}).1 [] =
        (false, [.NotEnoughArguments 1 0]) ∧
      (FunctionInvoker quietEnv sum_info {} .undefined []).trace =
        [.thrown (.NotEnoughArguments 1 0)] ∧
      nativeCalls (FunctionInvoker quietEnv sum_info {} .undefined []).trace = 0 :=
  have h := C4_not_enough_arguments quietEnv sum_info {} .undefined [] (by decide)
  ⟨h.1, h.2.1, h.2.2.2.2⟩

/-- C5: when the caller supplies at least `n_in_args` values and the value
belonging to some non-Skip In or InOut parameter fails the conversion test
(the `k`-th such parameter, counted from 0, is tested against `info[k]`), there
is a first such parameter `i` in declared order, `TypeCheck` returns false
after raising InvalidType for it, and `FunctionInvoker` stops there: after
what `Init` may have thrown, that error is its only effect, so no frame slot is
written, nothing is allocated and the native callee is not entered. -/
theorem C5_invalid_argument_type (env : Collaborators) (info : GIBaseInfo)
    (func : FunctionInfo) (this : Value) (arguments : List Value)
    (hlen : (Init info func).1.n_in_args ≤ (arguments.length : Int))
    (hbad : ∃ ki ∈ (inParams info (Init info func).1).enum,
      failsConversion env info arguments ki = true) :
    ∃ k i, (inParams info (Init info func).1).enum.find?
          (failsConversion env info arguments) = some (k, i) ∧
      TypeCheck env info (Init info func).1 arguments =
        (false, [.InvalidType i (argumentAt arguments k)]) ∧
      (FunctionInvoker env info func this arguments).trace =
        (Init info func).2.map Event.thrown ++
          [.thrown (.InvalidType i (argumentAt arguments k))] ∧
      (FunctionInvoker env info func this arguments).trace.countP Event.isFrameWrite = 0 ∧
      (FunctionInvoker env info func this arguments).trace.countP Event.isAllocation = 0 ∧
      nativeCalls (FunctionInvoker env info func this arguments).trace = 0 := by
  obtain ⟨ki, hmem, hki⟩ := hbad
  have hsome : ((inParams info (Init info func).1).enum.find?
      (failsConversion env info arguments)).isSome = true := by
    rw [List.find?_isSome]
    exact ⟨ki, hmem, hki⟩
  obtain ⟨⟨k, i⟩, hfind⟩ := Option.isSome_iff_exists.mp hsome
  have htc : TypeCheck env info (Init info func).1 arguments =
      (false, [.InvalidType i (argumentAt arguments k)]) := by
    unfold TypeCheck
    have hnot : ¬ ((arguments.length : Int) < (Init info func).1.n_in_args) := by omega
    simp only [hnot, if_false]
    rw [forLoop_TypeCheckBody]
    unfold inParams List.enum at hfind
    rw [hfind]
  have htr : (FunctionInvoker env info func this arguments).trace =
      (Init info func).2.map Event.thrown ++
        [.thrown (.InvalidType i (argumentAt arguments k))] := by
    unfold FunctionInvoker
    simp [htc]
  refine ⟨k, i, hfind, htc, htr, ?_, ?_, ?_⟩
  · rw [htr]; simp [List.countP_eq_zero, Event.isFrameWrite]
  · rw [htr]; simp [List.countP_eq_zero, Event.isAllocation]
  · rw [htr]; simp [nativeCalls, List.countP_eq_zero, Event.isNativeCall]

/-- Witness for C5: `load(path)` on an initialised plan, called with `null`
where only numbers convert. -/
theorem C5_invalid_argument_type_witness :
    ∃ k i, (inParams load_info (Init load_info (Init load_info {}).1).1).enum.find?
          (failsConversion failingEnv load_info [.null]) = some (k, i) ∧
      TypeCheck failingEnv load_info (Init load_info (Init load_info {}).1).1 [.null] =
        (false, [.InvalidType i (argumentAt [.null] k)]) ∧
      (FunctionInvoker failingEnv load_info (Init load_info {}).1 .undefined [.null]).trace =
        (Init load_info (Init load_info {}).1).2.map Event.thrown ++
          [.thrown (.InvalidType i (argumentAt [.null] k))] ∧
      (FunctionInvoker failingEnv load_info (Init load_info {}).1 .undefined
        [.null]).trace.countP Event.isFrameWrite = 0 ∧
      (FunctionInvoker failingEnv load_info (Init load_info {}).1 .undefined
        [.null]).trace.countP Event.isAllocation = 0 ∧
      nativeCalls (FunctionInvoker failingEnv load_info (Init load_info {}).1 .undefined
        [.null]).trace = 0 :=
  C5_invalid_argument_type failingEnv load_info (Init load_info {}).1 .undefined [.null]
    (by decide) ⟨(0, 0), by decide, by decide⟩

theorem foldl_set_range (f : Nat → FfiType) (n : Nat) :
    ∀ j, j ≤ n →
      (List.range j).foldl (fun a i => a.set (i + 1) (f i))
          (FfiType.ffi_type_pointer :: List.replicate n FfiType.unset) =
        FfiType.ffi_type_pointer ::
          ((List.range j).map f ++ List.replicate (n - j) FfiType.unset) := by
  intro j
  induction j with
  | zero => intro _; simp
  | succ j ih =>
    intro hj
    rw [List.range_succ, List.foldl_append, ih (by omega)]
    have hrep : List.replicate (n - j) FfiType.unset =
        FfiType.unset :: List.replicate (n - (j + 1)) FfiType.unset := by
      have : n - j = (n - (j + 1)) + 1 := by omega
      rw [this, List.replicate_succ]
    simp only [List.foldl_cons, List.foldl_nil, List.set_cons_succ, List.set_append,
      List.length_map, List.length_range, Nat.lt_irrefl, if_false, Nat.sub_self, hrep,
      List.set_cons_zero, List.map_append, List.map_cons, List.map_nil, List.append_assoc,
      List.singleton_append]

/-- For every descriptor, the signature prepared by `PrepareVFuncInvoker` has
one more argument type than the descriptor has parameters: the pointer-typed
receiver first, then the type of parameter `i` at position `i + 1`. -/
theorem PrepareVFuncInvoker_signature (info : GIBaseInfo) (address : Option Nat) :
    (PrepareVFuncInvoker info address).n_invoke_args = info.args.length + 1 ∧
      (PrepareVFuncInvoker info address).atypes =
        FfiType.ffi_type_pointer :: info.args.map vfuncArgType := by
  unfold PrepareVFuncInvoker
  simp only [List.replicate_succ, List.set_cons_zero, Nat.cast_add, Nat.cast_one, true_and]
  rw [foldl_set_range (fun i => vfuncArgType (load_arg info i)) info.args.length
    info.args.length (Nat.le_refl _)]
  simp only [Nat.sub_self, List.replicate_zero, List.append_nil, List.cons.injEq, true_and]
  apply List.ext_getElem
  · simp
  · intro i h1 h2
    simp only [List.length_map, List.length_range] at h1
    have hneg : ¬ ((i : Int) < 0) := by omega
    simp [load_arg, List.getD_eq_getElem?_getD, h1, hneg]

theorem InitCallback_is_method (arg_info : GIArgInfo) (i : Nat) (func : FunctionInfo) :
    (InitCallback arg_info i func).1.is_method = func.is_method := by
  unfold InitCallback
  simp only
  split_ifs <;> simp

theorem InitClassify_is_method (arg_info : GIArgInfo) (i : Nat) (func : FunctionInfo) :
    (InitClassify arg_info i func).1.is_method = func.is_method := by
  unfold InitClassify
  simp only
  split_ifs <;> simp [InitCallback_is_method]

theorem InitBody_is_method (info : GIBaseInfo) (i : Nat) (func : FunctionInfo) :
    (InitBody info i func).1.is_method = func.is_method := by
  unfold InitBody
  simp only
  split
  · next f e h =>
    have h2 := congrArg (fun r : FunctionInfo × Option Thrown => r.1.is_method) h
    simp only [InitClassify_is_method] at h2
    rw [← h2]
    split_ifs <;> simp
  · next f h =>
    have h2 := congrArg (fun r : FunctionInfo × Option Thrown => r.1.is_method) h
    simp only [InitClassify_is_method] at h2
    have h3 : f.is_method = func.is_method := by
      rw [← h2]
      split_ifs <;> simp
    split_ifs <;> simp [h3]

/-- For every descriptor, the plan `Init` builds in a `FunctionInfo` that has
none yet, as the one `MakeVirtualFunction` allocates, takes `is_method` from
the descriptor's own flags. -/
theorem Init_is_method (info : GIBaseInfo) (func : FunctionInfo)
    (hnull : func.call_parameters = none) :
    (Init info func).1.is_method = IsMethod info := by
  unfold Init
  simp only [hnull, Option.isSome_none, Bool.false_eq_true, if_false]
  have key := forLoop_invariant (fun f : FunctionInfo => f.is_method = IsMethod info)
    (InitBody info) (fun i s hs => by simp only [InitBody_is_method]; exact hs)
  split
  · next f e hl =>
    have h2 := congrArg (fun r : FunctionInfo × Option Thrown => r.1) hl
    simp only at h2
    rw [← h2]
    exact key _ _ rfl
  · next f hl =>
    have h2 := congrArg (fun r : FunctionInfo × Option Thrown => r.1) hl
    simp only at h2
    have h3 : f.is_method = IsMethod info := by
      rw [← h2]
      exact key _ _ rfl
    split_ifs <;> simp [h3]

/-! ## The virtual-dispatch variant, argument consumption, input count -/

/-- C11 (code bug): for the virtual function `activate(level)` whose own
method flag is not set, `PrepareVFuncInvoker` prepares a signature of 1 + 1
argument types with the pointer-typed receiver first, but when the callable is
invoked `Init` takes `is_method` from the descriptor's flags: the plan has
`is_method = false`, the frame has one slot, and slot 0 holds the parameter,
not the receiver. -/
theorem C11_virtual_plan_follows_method_flag :
    (MakeVirtualFunction activate_info (some 1)).map (fun vf => vf.invoker.n_invoke_args) =
        some 2 ∧
      (MakeVirtualFunction activate_info (some 1)).map (fun vf => vf.invoker.atypes) =
        some [.ffi_type_pointer, .of_type_info int_t] ∧
      (MakeVirtualFunction activate_info (some 1)).map (fun vf =>
        (FunctionInvoker quietEnv activate_info vf.func (.object 0) [.number 1]).func.is_method) =
        some false ∧
      (MakeVirtualFunction activate_info (some 1)).map (fun vf =>
        (FunctionInvoker quietEnv activate_info vf.func (.object 0) [.number 1]).trace) =
        some [.V8ToGIArgument 0 (.number 1), .slotWrite 0 (.fromV8 (.number 1)),
          .ffi_call [.fromV8 (.number 1)], .RETURN .empty, .FreeReturn .zero,
          .FreeGIArgument 0 false (.fromV8 (.number 1))] := by
  decide

/-- C12 (code bug): `each(cb, count)` is called with a function and the number
5. The type check passes, so `count` was checked against the number; the frame
builder, whose callback branch does not advance `in_arg`, fills `count` from
the function again instead of from the second caller value. -/
theorem C12_builder_reuses_callback_value :
    (TypeCheck strictEnv each_info (Init each_info {}).1 [.function 7, .number 5]).1 = true ∧
      specConsumed each_info (Init each_info {}).1 [.function 7, .number 5] =
        [(0, .function 7), (1, .number 5)] ∧
      builderConsumed
        (FunctionInvoker strictEnv each_info {} .undefined [.function 7, .number 5]).trace =
        [(0, .function 7), (1, .function 7)] := by
  decide

/-- C13 (code bug): for `count(n, values)` with the length parameter `n`
before the array, `FunctionInfo::Init` finishes without error and leaves
`n_in_args = -1` with `n_callable_args = 2`: the decrement for the preceding
length parameter runs although that parameter was never counted. -/
theorem C13_in_count_goes_negative :
    (Init count_info {}).2 = [] ∧ (Init count_info {}).1.n_callable_args = 2 ∧
      (Init count_info {}).1.n_in_args = -1 := by
  decide

end GNodeJS
